import Mathlib

/-!
Shallow embedding of `src/rust/src/main.rs` (a linear Bitcoin-RPC workflow):
the program connects to a regtest node, provisions two wallets, mines 101
blocks, sends 20 BTC, mines a confirming block, extracts the change output
and the fee from the resulting transaction, and writes a ten-line report.

The external node is modelled by an `Env` record holding the response of
every RPC call site of the source (the source issues each call exactly once,
except the two conditional `create_wallet` calls, which get one response
field each).  Amounts are in satoshis (`Nat` for unsigned `Amount`, `Int`
for `SignedAmount`); addresses, transaction ids, block hashes and scripts
are strings; script-to-address decoding (`Address::from_script`) is a pure
function `String → Option String` carried by the environment.

`run` replays the source line by line, accumulating the list of RPC calls
issued, the lines printed to stdout, and the report file, and ends in an
`Outcome`: `success` (main returned `Ok(())`), `rpcError` (an error
propagated by `?`, process exits nonzero), or `panicked` (an unconditional
fault from `panic!` / `expect` / `unwrap` / out-of-bounds indexing).
-/

/-- Hard-coded RPC endpoint of the source (line 7). -/
def RPC_URL : String := "http://127.0.0.1:18443"

/-- Hard-coded RPC user of the source (line 8). -/
def RPC_USER : String := "alice"

/-- Hard-coded RPC password of the source (line 9). -/
def RPC_PASS : String := "password"

/-- `Amount::from_btc(20.0)` of line 67, in satoshis. -/
def sendAmountSats : Nat := 2000000000

/-- A transaction output of the decoded raw transaction: locking script and
value (satoshis, `bitcoin::Amount` is unsigned). -/
structure TxOut where
  script_pubkey : String
  value : Nat
deriving DecidableEq, Repr

/-- The raw transaction returned by `get_raw_transaction` (line 85): its
ordered output list. -/
structure RawTx where
  output : List TxOut
deriving DecidableEq, Repr

/-- The wallet's view of the transaction returned by `get_transaction`
(line 84): the optional net fee (`SignedAmount`, satoshis). -/
structure GetTxResult where
  fee : Option Int
deriving DecidableEq, Repr

/-- Result of one fallible operation: `ok` or an error propagated by `?`. -/
inductive RpcResult (α : Type) where
  | ok : α → RpcResult α
  | err : String → RpcResult α
deriving DecidableEq, Repr

/-- One RPC call issued by the program, as recorded in the trace. -/
inductive Call where
  | listWallets : Call
  | createWallet : String → Call
  | newAddress : String → String → Call
  | generate : Nat → String → Call
  | getBalance : Call
  | send : String → Nat → Call
  | getBlockCount : Call
  | getTransaction : String → Call
  | getRawTransaction : String → Call
deriving DecidableEq, Repr

/-- The node's (and the I/O layer's) behaviour for one run: the response of
every call site of `main`, the script decoder, and whether some `writeln!`
fails (`writeFailAt = some k` makes the k-th of the ten report writes fail). -/
structure Env where
  connectBase : RpcResult Unit
  listWallets : RpcResult (List String)
  createMiner : RpcResult Unit
  createTrader : RpcResult Unit
  connectMiner : RpcResult Unit
  connectTrader : RpcResult Unit
  newAddressMiner : RpcResult String
  generate101 : RpcResult (List String)
  getBalance : RpcResult Nat
  newAddressTrader : RpcResult String
  sendToAddress : RpcResult String
  generate1 : RpcResult (List String)
  getBlockCount : RpcResult Nat
  getTransaction : RpcResult GetTxResult
  getRawTransaction : RpcResult RawTx
  fromScript : String → Option String
  fileCreate : RpcResult Unit
  writeFailAt : Option Nat

/-- Outcome of one run: `success trace stdout file` (main returned `Ok`),
`rpcError trace stdout file msg` (an error propagated by `?`; `file` is the
partial report, `none` unless a report write itself failed), or
`panicked trace stdout msg` (an unconditional fault; every fault site of the
source precedes `File::create`, so no file exists). -/
inductive Outcome where
  | success : List Call → List String → List String → Outcome
  | rpcError : List Call → List String → Option (List String) → String → Outcome
  | panicked : List Call → List String → String → Outcome
deriving DecidableEq, Repr

/-- Exit status of the process: 0 on `Ok(())`, 1 when `main` returns `Err`,
101 on a panic. -/
def exitCode : Outcome → Nat
  | .success _ _ _ => 0
  | .rpcError _ _ _ _ => 1
  | .panicked _ _ _ => 101

/-- The report file left behind by a run, if any. -/
def fileOf : Outcome → Option (List String)
  | .success _ _ f => some f
  | .rpcError _ _ f _ => f
  | .panicked _ _ _ => none

/-- The panic message of a run, if it panicked. -/
def panicMsgOf : Outcome → Option String
  | .panicked _ _ m => some m
  | _ => none

/-- The character of one decimal digit. -/
def digitChar : Nat → Char
  | 0 => '0' | 1 => '1' | 2 => '2' | 3 => '3' | 4 => '4'
  | 5 => '5' | 6 => '6' | 7 => '7' | 8 => '8' | _ => '9'

/-- The `fuel` low-order decimal digits of `n`, least significant first. -/
def natDigitsAux : Nat → Nat → List Nat
  | 0, _ => []
  | fuel + 1, n => n % 10 :: natDigitsAux fuel (n / 10)

/-- Decimal rendering of a satoshi amount as BTC, as `Amount::to_btc()`
printed with `{}`: integer part, then the fractional part (8 digits,
zero-padded) with trailing zeros trimmed, omitted entirely when zero. -/
def btcDisplay (sats : Nat) : String :=
  let whole := sats / 100000000
  let frac := sats % 100000000
  if frac = 0 then toString whole
  else
    let ds := ((natDigitsAux 8 frac).dropWhile (fun d => d = 0)).reverse.map digitChar
    toString whole ++ "." ++ String.mk ds

/-- The stdout line of source line 59. -/
def balanceLine (sats : Nat) : String :=
  "Miner balance: " ++ btcDisplay sats ++ " BTC"

/-- The stdout line of source line 119. -/
def doneLine : String := "Transaction details written to out.txt successfully"

/-- The ten report lines written at source lines 108-117, in order:
transaction id, mining address, literal "50", trader address, literal "20",
change address, change amount, fee, block height, block hash. -/
def reportLines (txid miningAddr traderAddr changeAddr : String)
    (changeVal feeAbs height : Nat) (blockHash : String) : List String :=
  [txid, miningAddr, "50", traderAddr, "20", changeAddr,
   btcDisplay changeVal, btcDisplay feeAbs, toString height, blockHash]

/-- The change-output search of source lines 88-95:
`decoded.output.iter().find(|o| decode(o) != trader)` where the closure
panics (`Except.error`) when a script fails to decode; `Except.ok none`
corresponds to `find` returning `None` (the `expect` at line 95 then
panics). -/
def findChange (dec : String → Option String) (trader : String) :
    List TxOut → Except String (Option TxOut)
  | [] => Except.ok none
  | o :: rest =>
    match dec o.script_pubkey with
    | none => Except.error "Failed to convert script to address"
    | some a => if a = trader then findChange dec trader rest else Except.ok (some o)

/-- Tail of `main` after both transaction lookups (source lines 88-121):
change-output search, change-address decode, fee unwrap, `File::create`,
the ten report writes, and the final status line. -/
def finish (env : Env) (trace : List Call) (out : List String)
    (miningAddr traderAddr txid blockHash : String) (height : Nat)
    (tx : GetTxResult) (raw : RawTx) : Outcome :=
  match findChange env.fromScript traderAddr raw.output with
  | Except.error m => Outcome.panicked trace out m
  | Except.ok none => Outcome.panicked trace out "Change output not found"
  | Except.ok (some co) =>
    match env.fromScript co.script_pubkey with
    | none => Outcome.panicked trace out "Failed to convert change script to address"
    | some changeAddr =>
      match tx.fee with
      | none => Outcome.panicked trace out "called Option::unwrap() on a None value"
      | some feeSats =>
        match env.fileCreate with
        | RpcResult.err e => Outcome.rpcError trace out none e
        | RpcResult.ok _ =>
          let f := reportLines txid miningAddr traderAddr changeAddr
            co.value feeSats.natAbs height blockHash
          match env.writeFailAt with
          | some k =>
            if k < 10 then Outcome.rpcError trace out (some (f.take k)) "write failed"
            else Outcome.success trace (out ++ [doneLine]) f
          | none => Outcome.success trace (out ++ [doneLine]) f

/-- Source lines 52-85: mining address, 101 blocks, balance print, trader
address, send, confirming block (with the `block_hashes[0]` indexing of
line 78), block count, transaction and raw-transaction lookups. -/
def mineAndPay (env : Env) (trace : List Call) : Outcome :=
  let t1 := trace ++ [Call.newAddress "Miner" "Mining Reward"]
  match env.newAddressMiner with
  | RpcResult.err e => Outcome.rpcError t1 [] none e
  | RpcResult.ok miningAddr =>
  let t2 := t1 ++ [Call.generate 101 miningAddr]
  match env.generate101 with
  | RpcResult.err e => Outcome.rpcError t2 [] none e
  | RpcResult.ok _ =>
  let t3 := t2 ++ [Call.getBalance]
  match env.getBalance with
  | RpcResult.err e => Outcome.rpcError t3 [] none e
  | RpcResult.ok bal =>
  let out1 := [balanceLine bal]
  let t4 := t3 ++ [Call.newAddress "Trader" "Received"]
  match env.newAddressTrader with
  | RpcResult.err e => Outcome.rpcError t4 out1 none e
  | RpcResult.ok traderAddr =>
  let t5 := t4 ++ [Call.send traderAddr sendAmountSats]
  match env.sendToAddress with
  | RpcResult.err e => Outcome.rpcError t5 out1 none e
  | RpcResult.ok txid =>
  let t6 := t5 ++ [Call.generate 1 miningAddr]
  match env.generate1 with
  | RpcResult.err e => Outcome.rpcError t6 out1 none e
  | RpcResult.ok blockHashes =>
  match blockHashes with
  | [] => Outcome.panicked t6 out1 "index out of bounds: the len is 0 but the index is 0"
  | blockHash :: _ =>
  let t7 := t6 ++ [Call.getBlockCount]
  match env.getBlockCount with
  | RpcResult.err e => Outcome.rpcError t7 out1 none e
  | RpcResult.ok height =>
  let t8 := t7 ++ [Call.getTransaction txid]
  match env.getTransaction with
  | RpcResult.err e => Outcome.rpcError t8 out1 none e
  | RpcResult.ok tx =>
  let t9 := t8 ++ [Call.getRawTransaction txid]
  match env.getRawTransaction with
  | RpcResult.err e => Outcome.rpcError t9 out1 none e
  | RpcResult.ok raw =>
    finish env t9 out1 miningAddr traderAddr txid blockHash height tx raw

/-- Source lines 41-49: the two wallet-scoped `Client::new` (fallible, not
RPC round trips, hence not recorded in the trace). -/
def clients (env : Env) (trace : List Call) : Outcome :=
  match env.connectMiner with
  | RpcResult.err e => Outcome.rpcError trace [] none e
  | RpcResult.ok _ =>
  match env.connectTrader with
  | RpcResult.err e => Outcome.rpcError trace [] none e
  | RpcResult.ok _ => mineAndPay env trace

/-- Source lines 36-38: create the "Trader" wallet when absent. -/
def provisionTrader (env : Env) (wallets : List String) (trace : List Call) : Outcome :=
  if wallets.contains "Trader" then clients env trace
  else
    match env.createTrader with
    | RpcResult.err e => Outcome.rpcError (trace ++ [Call.createWallet "Trader"]) [] none e
    | RpcResult.ok _ => clients env (trace ++ [Call.createWallet "Trader"])

/-- Source lines 33-35: create the "Miner" wallet when absent. -/
def provisionMiner (env : Env) (wallets : List String) : Outcome :=
  if wallets.contains "Miner" then provisionTrader env wallets [Call.listWallets]
  else
    match env.createMiner with
    | RpcResult.err e =>
      Outcome.rpcError [Call.listWallets, Call.createWallet "Miner"] [] none e
    | RpcResult.ok _ =>
      provisionTrader env wallets [Call.listWallets, Call.createWallet "Miner"]

/-- The whole of `main` (source lines 24-122). -/
def run (env : Env) : Outcome :=
  match env.connectBase with
  | RpcResult.err e => Outcome.rpcError [] [] none e
  | RpcResult.ok _ =>
  match env.listWallets with
  | RpcResult.err e => Outcome.rpcError [Call.listWallets] [] none e
  | RpcResult.ok wallets => provisionMiner env wallets

/-- The `create_wallet` calls issued given the node's wallet list
(source lines 33-38). -/
def createCalls (wallets : List String) : List Call :=
  (if wallets.contains "Miner" then [] else [Call.createWallet "Miner"]) ++
    (if wallets.contains "Trader" then [] else [Call.createWallet "Trader"])

/-- Number of `create_wallet` calls for a given name in a trace. -/
def countCreate (name : String) : List Call → Nat
  | [] => 0
  | Call.createWallet m :: rest =>
    (if m = name then 1 else 0) + countCreate name rest
  | _ :: rest => countCreate name rest

/-- Script decoder used by the nominal concrete runs: the trader's script
decodes to the trader's address, the change script to a distinct address. -/
def decodeOK (s : String) : Option String :=
  if s = "scriptT" then some "taddr"
  else if s = "scriptC" then some "caddr"
  else none

/-- A nominal environment: fresh node (empty wallet list), every call
succeeds, the transaction has the usual two outputs (change first). -/
def envOK : Env where
  connectBase := RpcResult.ok ()
  listWallets := RpcResult.ok []
  createMiner := RpcResult.ok ()
  createTrader := RpcResult.ok ()
  connectMiner := RpcResult.ok ()
  connectTrader := RpcResult.ok ()
  newAddressMiner := RpcResult.ok "maddr"
  generate101 := RpcResult.ok ["gh"]
  getBalance := RpcResult.ok 5000000000
  newAddressTrader := RpcResult.ok "taddr"
  sendToAddress := RpcResult.ok "txid1"
  generate1 := RpcResult.ok ["bh1"]
  getBlockCount := RpcResult.ok 102
  getTransaction := RpcResult.ok { fee := some (-3000) }
  getRawTransaction := RpcResult.ok
    { output := [{ script_pubkey := "scriptC", value := 2999997000 },
                 { script_pubkey := "scriptT", value := 2000000000 }] }
  fromScript := decodeOK
  fileCreate := RpcResult.ok ()
  writeFailAt := none

/-- The RPC-call trace of a run against `envOK`. -/
def traceOK : List Call :=
  [Call.listWallets, Call.createWallet "Miner", Call.createWallet "Trader",
   Call.newAddress "Miner" "Mining Reward", Call.generate 101 "maddr",
   Call.getBalance, Call.newAddress "Trader" "Received",
   Call.send "taddr" 2000000000, Call.generate 1 "maddr", Call.getBlockCount,
   Call.getTransaction "txid1", Call.getRawTransaction "txid1"]

/-- The stdout of a run against `envOK`. -/
def stdoutOK : List String :=
  ["Miner balance: 50 BTC", "Transaction details written to out.txt successfully"]

/-- The report file of a run against `envOK`. -/
def fileOK : List String :=
  ["txid1", "maddr", "50", "taddr", "20", "caddr", "29.99997", "0.00003", "102", "bh1"]

/-- Script decoder for the three-output transaction: every script decodes,
only `scriptT` belongs to the trader. -/
def decodeC1 (s : String) : Option String :=
  if s = "scriptT" then some "taddr"
  else if s = "scriptX" then some "xaddr"
  else if s = "scriptY" then some "yaddr"
  else none

/-- The three-output raw transaction (payment to the trader is the second
output; two further non-recipient outputs surround it). -/
def rawC1 : RawTx :=
  { output := [{ script_pubkey := "scriptX", value := 1000000000 },
               { script_pubkey := "scriptT", value := 2000000000 },
               { script_pubkey := "scriptY", value := 1999997000 }] }

/-- `envOK` with a three-output transaction: exercises the change search on
an output count other than two. -/
def envC1 : Env :=
  { envOK with getRawTransaction := RpcResult.ok rawC1, fromScript := decodeC1 }

/-- `envOK` with the wallet transaction record carrying no fee field. -/
def envFeeNone : Env :=
  { envOK with getTransaction := RpcResult.ok { fee := none } }

/-- `envOK` where the one-block `generate_to_address` returns an empty
hash list. -/
def envEmptyGen : Env :=
  { envOK with generate1 := RpcResult.ok [] }

/-- `envOK` where the fourth report write fails. -/
def envWF : Env :=
  { envOK with writeFailAt := some 3 }

/-- An environment whose initial connection fails. -/
def envErrConn : Env :=
  { envOK with connectBase := RpcResult.err "connection refused" }

theorem rpc_ok_inj {α : Type} {a b : α} (h : RpcResult.ok a = RpcResult.ok b) : a = b := by
  injection h

theorem finish_success_inv (env : Env) (trace : List Call) (out : List String)
    (ma ta txid bh : String) (ht : Nat) (tx : GetTxResult) (raw : RawTx)
    (t : List Call) (o f : List String)
    (h : finish env trace out ma ta txid bh ht tx raw = Outcome.success t o f) :
    ∃ co ca fe,
      findChange env.fromScript ta raw.output = Except.ok (some co) ∧
      env.fromScript co.script_pubkey = some ca ∧
      tx.fee = some fe ∧
      env.fileCreate = RpcResult.ok () ∧
      t = trace ∧ o = out ++ [doneLine] ∧
      f = reportLines txid ma ta ca co.value fe.natAbs ht bh := by
  unfold finish at h
  repeat' split at h
  all_goals try exact Outcome.noConfusion h
  all_goals injection h with h1 h2 h3
  all_goals subst h1 h2 h3
  all_goals
    exact ⟨_, _, _, by assumption, by assumption, by assumption, by assumption,
      rfl, rfl, rfl⟩

theorem mineAndPay_success_inv (env : Env) (trace : List Call)
    (t : List Call) (o f : List String)
    (h : mineAndPay env trace = Outcome.success t o f) :
    ∃ ma g bal ta txid bh rest ht tx raw,
      env.newAddressMiner = RpcResult.ok ma ∧
      env.generate101 = RpcResult.ok g ∧
      env.getBalance = RpcResult.ok bal ∧
      env.newAddressTrader = RpcResult.ok ta ∧
      env.sendToAddress = RpcResult.ok txid ∧
      env.generate1 = RpcResult.ok (bh :: rest) ∧
      env.getBlockCount = RpcResult.ok ht ∧
      env.getTransaction = RpcResult.ok tx ∧
      env.getRawTransaction = RpcResult.ok raw ∧
      finish env
        (trace ++ [Call.newAddress "Miner" "Mining Reward", Call.generate 101 ma,
          Call.getBalance, Call.newAddress "Trader" "Received",
          Call.send ta sendAmountSats, Call.generate 1 ma, Call.getBlockCount,
          Call.getTransaction txid, Call.getRawTransaction txid])
        [balanceLine bal] ma ta txid bh ht tx raw = Outcome.success t o f := by
  unfold mineAndPay at h
  repeat' split at h
  all_goals try exact Outcome.noConfusion h
  exact ⟨_, _, _, _, _, _, _, _, _, _, by assumption, by assumption, by assumption,
    by assumption, by assumption, by assumption, by assumption, by assumption,
    by assumption, by simpa [List.append_assoc] using h⟩

theorem clients_success_inv (env : Env) (trace : List Call)
    (t : List Call) (o f : List String)
    (h : clients env trace = Outcome.success t o f) :
    env.connectMiner = RpcResult.ok () ∧ env.connectTrader = RpcResult.ok () ∧
      mineAndPay env trace = Outcome.success t o f := by
  unfold clients at h
  repeat' split at h
  all_goals try exact Outcome.noConfusion h
  exact ⟨by assumption, by assumption, h⟩

theorem provisionTrader_success_inv (env : Env) (wallets : List String)
    (trace : List Call) (t : List Call) (o f : List String)
    (h : provisionTrader env wallets trace = Outcome.success t o f) :
    (wallets.contains "Trader" = true ∨ env.createTrader = RpcResult.ok ()) ∧
      clients env
        (trace ++ if wallets.contains "Trader" then [] else [Call.createWallet "Trader"]) =
        Outcome.success t o f := by
  unfold provisionTrader at h
  split at h
  · rename_i hc
    refine ⟨Or.inl hc, ?_⟩
    rw [if_pos hc, List.append_nil]
    exact h
  · rename_i hc
    split at h
    · exact Outcome.noConfusion h
    · rename_i u heq
      refine ⟨Or.inr heq, ?_⟩
      rw [if_neg hc]
      exact h

theorem provisionMiner_success_inv (env : Env) (wallets : List String)
    (t : List Call) (o f : List String)
    (h : provisionMiner env wallets = Outcome.success t o f) :
    (wallets.contains "Miner" = true ∨ env.createMiner = RpcResult.ok ()) ∧
      provisionTrader env wallets
        ([Call.listWallets] ++ if wallets.contains "Miner" then [] else [Call.createWallet "Miner"]) =
        Outcome.success t o f := by
  unfold provisionMiner at h
  split at h
  · rename_i hc
    refine ⟨Or.inl hc, ?_⟩
    rw [if_pos hc, List.append_nil]
    exact h
  · rename_i hc
    split at h
    · exact Outcome.noConfusion h
    · rename_i u heq
      refine ⟨Or.inr heq, ?_⟩
      rw [if_neg hc]
      exact h

theorem trace_flat (wallets : List String) (rest : List Call) :
    (([Call.listWallets] ++
        (if wallets.contains "Miner" then [] else [Call.createWallet "Miner"])) ++
      (if wallets.contains "Trader" then [] else [Call.createWallet "Trader"])) ++ rest =
      Call.listWallets :: createCalls wallets ++ rest := by
  by_cases hM : "Miner" ∈ wallets <;> by_cases hT : "Trader" ∈ wallets <;>
    simp [createCalls, hM, hT]

theorem run_success_inv (env : Env) (t : List Call) (o f : List String)
    (h : run env = Outcome.success t o f) :
    ∃ ws ma g bal ta txid bh rest ht tx raw co ca fe,
      env.connectBase = RpcResult.ok () ∧
      env.listWallets = RpcResult.ok ws ∧
      (ws.contains "Miner" = true ∨ env.createMiner = RpcResult.ok ()) ∧
      (ws.contains "Trader" = true ∨ env.createTrader = RpcResult.ok ()) ∧
      env.connectMiner = RpcResult.ok () ∧
      env.connectTrader = RpcResult.ok () ∧
      env.newAddressMiner = RpcResult.ok ma ∧
      env.generate101 = RpcResult.ok g ∧
      env.getBalance = RpcResult.ok bal ∧
      env.newAddressTrader = RpcResult.ok ta ∧
      env.sendToAddress = RpcResult.ok txid ∧
      env.generate1 = RpcResult.ok (bh :: rest) ∧
      env.getBlockCount = RpcResult.ok ht ∧
      env.getTransaction = RpcResult.ok tx ∧
      env.getRawTransaction = RpcResult.ok raw ∧
      findChange env.fromScript ta raw.output = Except.ok (some co) ∧
      env.fromScript co.script_pubkey = some ca ∧
      tx.fee = some fe ∧
      env.fileCreate = RpcResult.ok () ∧
      t = Call.listWallets :: createCalls ws ++
        [Call.newAddress "Miner" "Mining Reward", Call.generate 101 ma,
         Call.getBalance, Call.newAddress "Trader" "Received",
         Call.send ta sendAmountSats, Call.generate 1 ma, Call.getBlockCount,
         Call.getTransaction txid, Call.getRawTransaction txid] ∧
      o = [balanceLine bal, doneLine] ∧
      f = reportLines txid ma ta ca co.value fe.natAbs ht bh := by
  unfold run at h
  repeat' split at h
  all_goals try exact Outcome.noConfusion h
  rename_i x1 u hcb x2 ws hws
  obtain ⟨hM, h⟩ := provisionMiner_success_inv env ws t o f h
  obtain ⟨hT, h⟩ := provisionTrader_success_inv env ws _ t o f h
  obtain ⟨hcm, hct, h⟩ := clients_success_inv env _ t o f h
  obtain ⟨ma, g, bal, ta, txid, bh, rest, ht, tx, raw,
    h1, h2, h3, h4, h5, h6, h7, h8, h9, h⟩ := mineAndPay_success_inv env _ t o f h
  obtain ⟨co, ca, fe, hf1, hf2, hf3, hf4, hteq, hoeq, hfeq⟩ :=
    finish_success_inv env _ _ ma ta txid bh ht tx raw t o f h
  refine ⟨ws, ma, g, bal, ta, txid, bh, rest, ht, tx, raw, co, ca, fe,
    hcb, hws, hM, hT, hcm, hct, h1, h2, h3, h4, h5, h6, h7, h8, h9,
    hf1, hf2, hf3, hf4, ?_, by simpa using hoeq, hfeq⟩
  rw [hteq, trace_flat]

theorem findChange_error_msg (dec : String → Option String) (trader : String) :
    ∀ (l : List TxOut) (m : String), findChange dec trader l = Except.error m →
      m = "Failed to convert script to address" := by
  intro l
  induction l with
  | nil => intro m h; exact Except.noConfusion h
  | cons o rest ih =>
    intro m h
    unfold findChange at h
    split at h
    · injection h with h1
      exact h1.symm
    · split at h
      · exact ih m h
      · exact Except.noConfusion h

theorem finish_panic_inv (env : Env) (trace : List Call) (out : List String)
    (ma ta txid bh : String) (ht : Nat) (tx : GetTxResult) (raw : RawTx)
    (t : List Call) (o : List String) (m : String)
    (h : finish env trace out ma ta txid bh ht tx raw = Outcome.panicked t o m) :
    m = "Failed to convert script to address" ∨
    m = "Change output not found" ∨
    m = "Failed to convert change script to address" ∨
    m = "called Option::unwrap() on a None value" := by
  unfold finish at h
  repeat' split at h
  all_goals try exact Outcome.noConfusion h
  · injection h with h1 h2 h3
    subst h3
    rename_i m' heq
    exact Or.inl (findChange_error_msg env.fromScript ta raw.output m' heq)
  · injection h with h1 h2 h3
    exact Or.inr (Or.inl h3.symm)
  · injection h with h1 h2 h3
    exact Or.inr (Or.inr (Or.inl h3.symm))
  · injection h with h1 h2 h3
    exact Or.inr (Or.inr (Or.inr h3.symm))

theorem mineAndPay_panic_inv (env : Env) (trace : List Call)
    (t : List Call) (o : List String) (m : String)
    (h : mineAndPay env trace = Outcome.panicked t o m) :
    m = "Failed to convert script to address" ∨
    m = "Change output not found" ∨
    m = "Failed to convert change script to address" ∨
    m = "called Option::unwrap() on a None value" ∨
    m = "index out of bounds: the len is 0 but the index is 0" := by
  unfold mineAndPay at h
  repeat' split at h
  all_goals try exact Outcome.noConfusion h
  · injection h with h1 h2 h3
    exact Or.inr (Or.inr (Or.inr (Or.inr h3.symm)))
  · rcases finish_panic_inv env _ _ _ _ _ _ _ _ _ t o m h with
      h1 | h1 | h1 | h1 <;> simp [h1]

theorem run_panic_inv (env : Env) (t : List Call) (o : List String) (m : String)
    (h : run env = Outcome.panicked t o m) :
    m = "Failed to convert script to address" ∨
    m = "Change output not found" ∨
    m = "Failed to convert change script to address" ∨
    m = "called Option::unwrap() on a None value" ∨
    m = "index out of bounds: the len is 0 but the index is 0" := by
  unfold run provisionMiner provisionTrader clients at h
  repeat' split at h
  all_goals try exact Outcome.noConfusion h
  all_goals exact mineAndPay_panic_inv env _ t o m h

theorem finish_rpcError_inv (env : Env) (trace : List Call) (out : List String)
    (ma ta txid bh : String) (ht : Nat) (tx : GetTxResult) (raw : RawTx)
    (t : List Call) (o : List String) (fl : Option (List String)) (e : String)
    (h : finish env trace out ma ta txid bh ht tx raw = Outcome.rpcError t o fl e) :
    fl = none ∨ (env.fileCreate = RpcResult.ok () ∧ env.writeFailAt ≠ none) := by
  unfold finish at h
  repeat' split at h
  all_goals try exact Outcome.noConfusion h
  · injection h with h1 h2 h3 h4
    exact Or.inl h3.symm
  · injection h with h1 h2 h3 h4
    refine Or.inr ⟨by assumption, ?_⟩
    intro hn
    simp_all

theorem run_rpcError_inv (env : Env) (t : List Call) (o : List String)
    (fl : Option (List String)) (e : String)
    (h : run env = Outcome.rpcError t o fl e) :
    fl = none ∨ (env.fileCreate = RpcResult.ok () ∧ env.writeFailAt ≠ none) := by
  unfold run provisionMiner provisionTrader clients mineAndPay at h
  repeat' split at h
  all_goals try exact Outcome.noConfusion h
  all_goals try (injection h with h1 h2 h3 h4; exact Or.inl h3.symm)
  all_goals exact finish_rpcError_inv env _ _ _ _ _ _ _ _ _ t o fl e h

theorem findChange_ok_none_iff (dec : String → Option String) (trader : String) :
    ∀ l : List TxOut,
      (findChange dec trader l = Except.ok none ↔
        ∀ o ∈ l, dec o.script_pubkey = some trader) := by
  intro l
  induction l with
  | nil => simp [findChange]
  | cons o rest ih =>
    constructor
    · intro h o' ho'
      unfold findChange at h
      split at h
      · exact Except.noConfusion h
      · rename_i a hd
        split at h
        · rename_i ha
          rcases List.mem_cons.1 ho' with rfl | ho'
          · rw [hd, ha]
          · exact ih.mp h o' ho'
        · exact Option.noConfusion (Except.ok.inj h)
    · intro hall
      have hd : dec o.script_pubkey = some trader := hall o (List.mem_cons_self o rest)
      have hrest : findChange dec trader rest = Except.ok none :=
        ih.mpr (fun o' ho' => hall o' (List.mem_cons_of_mem o ho'))
      simp [findChange, hd, hrest]

theorem findChange_first (dec : String → Option String) (trader : String)
    (o : TxOut) (rest : List TxOut) (a : String)
    (hd : dec o.script_pubkey = some a) (hne : a ≠ trader) :
    findChange dec trader (o :: rest) = Except.ok (some o) := by
  simp [findChange, hd, hne]

theorem findChange_skip (dec : String → Option String) (trader : String)
    (o : TxOut) (rest : List TxOut)
    (hd : dec o.script_pubkey = some trader) :
    findChange dec trader (o :: rest) = findChange dec trader rest := by
  simp [findChange, hd]

theorem findChange_ok_mem (dec : String → Option String) (trader : String) :
    ∀ (l : List TxOut) (o : TxOut), findChange dec trader l = Except.ok (some o) →
      o ∈ l ∧ ∃ a, dec o.script_pubkey = some a ∧ a ≠ trader := by
  intro l
  induction l with
  | nil =>
    intro o h
    exact Option.noConfusion (Except.ok.inj h)
  | cons o' rest ih =>
    intro o h
    unfold findChange at h
    split at h
    · exact Except.noConfusion h
    · rename_i a hd
      split at h
      · obtain ⟨hm, hex⟩ := ih o h
        exact ⟨List.mem_cons_of_mem o' hm, hex⟩
      · rename_i ha
        obtain rfl : o' = o := Option.some.inj (Except.ok.inj h)
        exact ⟨List.mem_cons_self o' rest, a, hd, ha⟩

/-- Claim C1, counterexample: a transaction with three outputs (first output
a non-recipient one) makes the change/payment partition step succeed rather
than fail: the run exits 0 and the report takes the change address and
amount from the first non-recipient output ("xaddr", 10 BTC). -/
theorem spec_c1_counterexample :
    rawC1.output.length = 3 ∧
    exitCode (run envC1) = 0 ∧
    fileOf (run envC1) =
      some ["txid1", "maddr", "50", "taddr", "20", "xaddr", "10", "0.00003", "102", "bh1"] :=
  ⟨rfl, by rfl, by rfl⟩

/-- Claim C1 (amended): on an output list of any length, the change-output
search fails with "change output not found" exactly when every output's
script decodes to the trader's address; any output it returns is a genuine
member of the list whose decoded address differs from the trader's; and it
silently returns the FIRST such output — in particular, with more than two
outputs it does report a change taken from an arbitrary (first)
non-recipient output instead of failing deterministically. -/
theorem spec_c1_amended (dec : String → Option String) (trader : String)
    (l : List TxOut) :
    (findChange dec trader l = Except.ok none ↔
      ∀ o ∈ l, dec o.script_pubkey = some trader) ∧
    (∀ o : TxOut, findChange dec trader l = Except.ok (some o) →
      o ∈ l ∧ ∃ a, dec o.script_pubkey = some a ∧ a ≠ trader) ∧
    (∀ (o : TxOut) (rest : List TxOut) (a : String),
      l = o :: rest → dec o.script_pubkey = some a → a ≠ trader →
      findChange dec trader l = Except.ok (some o)) := by
  refine ⟨findChange_ok_none_iff dec trader l,
    fun o h => findChange_ok_mem dec trader l o h, ?_⟩
  rintro o rest a rfl hd hne
  exact findChange_first dec trader o rest a hd hne

/-- Claim C1 witness: the amended claim applied to the three-output
transaction selects its first output. -/
theorem spec_c1_amended_witness :
    findChange decodeC1 "taddr" rawC1.output =
      Except.ok (some { script_pubkey := "scriptX", value := 1000000000 }) :=
  (spec_c1_amended decodeC1 "taddr" rawC1.output).2.2
    { script_pubkey := "scriptX", value := 1000000000 }
    [{ script_pubkey := "scriptT", value := 2000000000 },
     { script_pubkey := "scriptY", value := 1999997000 }]
    "xaddr" rfl rfl (by decide)

/-- Claim C2: on every successful run the report file is exactly the ten
fields, in fixed order: transaction id, mining address, literal "50",
recipient address, literal "20", change address, change amount, fee, block
height, block hash — nothing else. -/
theorem spec_c2 (env : Env) (t : List Call) (o f : List String)
    (txid ma ta ca bh : String) (ht2 : Nat) (tx : GetTxResult) (raw : RawTx)
    (co : TxOut) (fe : Int) (rest : List String)
    (h : run env = Outcome.success t o f)
    (hsend : env.sendToAddress = RpcResult.ok txid)
    (hma : env.newAddressMiner = RpcResult.ok ma)
    (hta : env.newAddressTrader = RpcResult.ok ta)
    (hg1 : env.generate1 = RpcResult.ok (bh :: rest))
    (hbc : env.getBlockCount = RpcResult.ok ht2)
    (htx : env.getTransaction = RpcResult.ok tx)
    (hraw : env.getRawTransaction = RpcResult.ok raw)
    (hfind : findChange env.fromScript ta raw.output = Except.ok (some co))
    (hca : env.fromScript co.script_pubkey = some ca)
    (hfee : tx.fee = some fe) :
    f = [txid, ma, "50", ta, "20", ca, btcDisplay co.value,
      btcDisplay fe.natAbs, toString ht2, bh] ∧ f.length = 10 := by
  obtain ⟨ws', ma', g', bal', ta', txid', bh', rest', ht', tx', raw', co', ca', fe',
    i1, i2, i3, i4, i5, i6, i7, i8, i9, i10, i11, i12, i13, i14, i15, i16, i17, i18, i19,
    iteq, ioeq, ifeq⟩ := run_success_inv env t o f h
  obtain rfl : ma' = ma := rpc_ok_inj (i7.symm.trans hma)
  obtain rfl : ta' = ta := rpc_ok_inj (i10.symm.trans hta)
  obtain rfl : txid' = txid := rpc_ok_inj (i11.symm.trans hsend)
  have hl : bh' :: rest' = bh :: rest := rpc_ok_inj (i12.symm.trans hg1)
  obtain ⟨rfl, rfl⟩ : bh' = bh ∧ rest' = rest := by
    injection hl with hx hy
    exact ⟨hx, hy⟩
  obtain rfl : ht' = ht2 := rpc_ok_inj (i13.symm.trans hbc)
  obtain rfl : tx' = tx := rpc_ok_inj (i14.symm.trans htx)
  obtain rfl : raw' = raw := rpc_ok_inj (i15.symm.trans hraw)
  obtain rfl : co' = co := Option.some.inj (Except.ok.inj (i16.symm.trans hfind))
  obtain rfl : ca' = ca := Option.some.inj (i17.symm.trans hca)
  obtain rfl : fe' = fe := Option.some.inj (i18.symm.trans hfee)
  subst ifeq
  exact ⟨rfl, rfl⟩

/-- Claim C2 witness: the nominal run produces exactly the ten fields. -/
theorem spec_c2_witness :
    fileOK = ["txid1", "maddr", "50", "taddr", "20", "caddr", "29.99997",
      "0.00003", "102", "bh1"] ∧ fileOK.length = 10 :=
  spec_c2 envOK traceOK stdoutOK fileOK "txid1" "maddr" "taddr" "caddr" "bh1" 102
    { fee := some (-3000) }
    { output := [{ script_pubkey := "scriptC", value := 2999997000 },
                 { script_pubkey := "scriptT", value := 2000000000 }] }
    { script_pubkey := "scriptC", value := 2999997000 } (-3000) []
    (by rfl) rfl rfl rfl rfl rfl rfl rfl (by rfl) rfl rfl

/-- Claim C3: on every successful run, line 3 of the report is the literal
"50" and line 5 is the literal "20", whatever the node returned. -/
theorem spec_c3 (env : Env) (t : List Call) (o f : List String)
    (h : run env = Outcome.success t o f) :
    f.get? 2 = some "50" ∧ f.get? 4 = some "20" := by
  obtain ⟨ws', ma', g', bal', ta', txid', bh', rest', ht', tx', raw', co', ca', fe',
    -, -, -, -, -, -, -, -, -, -, -, -, -, -, -, -, -, -, -, -, -, ifeq⟩ :=
    run_success_inv env t o f h
  subst ifeq
  exact ⟨rfl, rfl⟩

/-- Claim C3 witness: the nominal run has "50" on line 3 and "20" on
line 5. -/
theorem spec_c3_witness :
    fileOK.get? 2 = some "50" ∧ fileOK.get? 4 = some "20" :=
  spec_c3 envOK traceOK stdoutOK fileOK (by rfl)

/-- Claim C4: wallet provisioning is idempotent — on a successful run a
create-wallet call for "Miner" (resp. "Trader") appears in the trace exactly
once when the name is absent from the node's wallet list and not at all when
it is present. -/
theorem spec_c4 (env : Env) (t : List Call) (o f : List String) (ws : List String)
    (h : run env = Outcome.success t o f)
    (hws : env.listWallets = RpcResult.ok ws) :
    countCreate "Miner" t = (if ws.contains "Miner" then 0 else 1) ∧
    countCreate "Trader" t = (if ws.contains "Trader" then 0 else 1) := by
  obtain ⟨ws', ma', g', bal', ta', txid', bh', rest', ht', tx', raw', co', ca', fe',
    -, i2, -, -, -, -, -, -, -, -, -, -, -, -, -, -, -, -, -, iteq, -, -⟩ :=
    run_success_inv env t o f h
  have hws' : ws' = ws := rpc_ok_inj (i2.symm.trans hws)
  subst iteq
  rw [hws']
  constructor <;>
    by_cases hM : "Miner" ∈ ws <;> by_cases hT : "Trader" ∈ ws <;>
      simp [countCreate, createCalls, hM, hT]

/-- Claim C4 witness: on a fresh node (empty wallet list) each wallet is
created exactly once. -/
theorem spec_c4_witness :
    countCreate "Miner" traceOK = (if ([] : List String).contains "Miner" then 0 else 1) ∧
    countCreate "Trader" traceOK = (if ([] : List String).contains "Trader" then 0 else 1) :=
  spec_c4 envOK traceOK stdoutOK fileOK [] (by rfl) rfl

/-- Claim C5: on a successful run the RPC trace is fixed — wallet listing
and conditional creation, then the mining address, 101 blocks to it, the
balance read, the trader address, the 20 BTC send, one confirming block to
the same mining address, and the height and transaction lookups, in this
order. -/
theorem spec_c5 (env : Env) (t : List Call) (o f : List String)
    (ws : List String) (ma ta txid : String)
    (h : run env = Outcome.success t o f)
    (hws : env.listWallets = RpcResult.ok ws)
    (hma : env.newAddressMiner = RpcResult.ok ma)
    (hta : env.newAddressTrader = RpcResult.ok ta)
    (hsend : env.sendToAddress = RpcResult.ok txid) :
    t = Call.listWallets :: createCalls ws ++
      [Call.newAddress "Miner" "Mining Reward", Call.generate 101 ma,
       Call.getBalance, Call.newAddress "Trader" "Received",
       Call.send ta sendAmountSats, Call.generate 1 ma, Call.getBlockCount,
       Call.getTransaction txid, Call.getRawTransaction txid] := by
  obtain ⟨ws', ma', g', bal', ta', txid', bh', rest', ht', tx', raw', co', ca', fe',
    -, i2, -, -, -, -, i7, -, -, i10, i11, -, -, -, -, -, -, -, -, iteq, -, -⟩ :=
    run_success_inv env t o f h
  obtain rfl : ws' = ws := rpc_ok_inj (i2.symm.trans hws)
  obtain rfl : ma' = ma := rpc_ok_inj (i7.symm.trans hma)
  obtain rfl : ta' = ta := rpc_ok_inj (i10.symm.trans hta)
  obtain rfl : txid' = txid := rpc_ok_inj (i11.symm.trans hsend)
  exact iteq

/-- Claim C5 witness: the nominal run issues exactly the fixed call
sequence. -/
theorem spec_c5_witness :
    traceOK = Call.listWallets :: createCalls [] ++
      [Call.newAddress "Miner" "Mining Reward", Call.generate 101 "maddr",
       Call.getBalance, Call.newAddress "Trader" "Received",
       Call.send "taddr" sendAmountSats, Call.generate 1 "maddr", Call.getBlockCount,
       Call.getTransaction "txid1", Call.getRawTransaction "txid1"] :=
  spec_c5 envOK traceOK stdoutOK fileOK [] "maddr" "taddr" "txid1" (by rfl) rfl rfl rfl rfl

/-- Claim C6, counterexample: an absent fee in the wallet's transaction
record DOES abort via an unconditional fault (the `unwrap` at source line
103), contrary to the claim that no failure other than script decode and
change-not-found does. -/
theorem spec_c6_counterexample :
    panicMsgOf (run envFeeNone) = some "called Option::unwrap() on a None value" ∧
    exitCode (run envFeeNone) = 101 := ⟨by rfl, by rfl⟩

/-- Claim C6 (amended): every unconditional fault of a run carries one of
exactly five messages — the two script-decode faults, the missing change
output, the `unwrap` on an absent fee, and the out-of-bounds indexing of an
empty generated-block list; all other failures propagate as returned
errors. -/
theorem spec_c6_amended (env : Env) (t : List Call) (o : List String) (m : String)
    (h : run env = Outcome.panicked t o m) :
    m = "Failed to convert script to address" ∨
    m = "Change output not found" ∨
    m = "Failed to convert change script to address" ∨
    m = "called Option::unwrap() on a None value" ∨
    m = "index out of bounds: the len is 0 but the index is 0" :=
  run_panic_inv env t o m h

/-- Claim C6 witness: the amended classification applied to the
absent-fee run. -/
theorem spec_c6_amended_witness :
    "called Option::unwrap() on a None value" = "Failed to convert script to address" ∨
    "called Option::unwrap() on a None value" = "Change output not found" ∨
    "called Option::unwrap() on a None value" = "Failed to convert change script to address" ∨
    "called Option::unwrap() on a None value" = "called Option::unwrap() on a None value" ∨
    "called Option::unwrap() on a None value" =
      "index out of bounds: the len is 0 but the index is 0" :=
  spec_c6_amended envFeeNone traceOK ["Miner balance: 50 BTC"]
    "called Option::unwrap() on a None value" (by rfl)

/-- Claim C7: the report file is written only after every preceding step
succeeded — a run that fails before `File::create` (any propagated RPC
error, and every unconditional fault) leaves no file; a failed run can
leave a (partial) file only when the failure was a report write itself,
after a successful `File::create`. -/
theorem spec_c7 (env : Env) :
    (∀ (t : List Call) (o : List String) (fl : Option (List String)) (e : String),
      run env = Outcome.rpcError t o fl e → fl ≠ none →
      env.fileCreate = RpcResult.ok () ∧ env.writeFailAt ≠ none) ∧
    (∀ (t : List Call) (o : List String) (m : String),
      run env = Outcome.panicked t o m → fileOf (run env) = none) := by
  constructor
  · intro t o fl e h hne
    rcases run_rpcError_inv env t o fl e h with h1 | h1
    · exact absurd h1 hne
    · exact h1
  · intro t o m h
    rw [h]
    rfl

/-- Claim C7 witness: the only failed run with a file is the one whose
write failed after a successful file creation. -/
theorem spec_c7_witness :
    envWF.fileCreate = RpcResult.ok () ∧ envWF.writeFailAt ≠ none :=
  (spec_c7 envWF).1 traceOK ["Miner balance: 50 BTC"]
    (some ["txid1", "maddr", "50"]) "write failed" (by rfl) (by simp)

/-- Claim C8: on every successful run, line 8 of the report is the absolute
value of the wallet-reported net fee, hence non-negative. -/
theorem spec_c8 (env : Env) (t : List Call) (o f : List String)
    (tx : GetTxResult) (fe : Int)
    (h : run env = Outcome.success t o f)
    (htx : env.getTransaction = RpcResult.ok tx)
    (hfee : tx.fee = some fe) :
    f.get? 7 = some (btcDisplay fe.natAbs) ∧ ((fe.natAbs : Int) = |fe|) ∧
      0 ≤ ((fe.natAbs : Int)) := by
  obtain ⟨ws', ma', g', bal', ta', txid', bh', rest', ht', tx', raw', co', ca', fe',
    -, -, -, -, -, -, -, -, -, -, -, -, -, i14, -, -, -, i18, -, -, -, ifeq⟩ :=
    run_success_inv env t o f h
  obtain rfl : tx' = tx := rpc_ok_inj (i14.symm.trans htx)
  obtain rfl : fe' = fe := Option.some.inj (i18.symm.trans hfee)
  subst ifeq
  refine ⟨rfl, ?_, ?_⟩
  · exact (Int.abs_eq_natAbs _).symm
  · exact Int.natCast_nonneg _

/-- Claim C8 witness: the nominal run's fee line "0.00003" is the absolute
value of the reported fee of -3000 satoshis. -/
theorem spec_c8_witness :
    fileOK.get? 7 = some (btcDisplay (Int.natAbs (-3000))) ∧
    ((Int.natAbs (-3000) : Int) = |(-3000 : Int)|) ∧
    0 ≤ ((Int.natAbs (-3000) : Int)) :=
  spec_c8 envOK traceOK stdoutOK fileOK { fee := some (-3000) } (-3000) (by rfl) rfl rfl

/-- Claim C9: on success the process prints exactly two status lines (the
miner-balance line and the completion line) and exits 0; any propagated
error or fault exits nonzero. -/
theorem spec_c9 (env : Env) :
    (∀ (t : List Call) (o f : List String) (bal : Nat),
      run env = Outcome.success t o f → env.getBalance = RpcResult.ok bal →
      o = [balanceLine bal, doneLine] ∧ o.length = 2 ∧ exitCode (run env) = 0) ∧
    (∀ (t : List Call) (o : List String) (fl : Option (List String)) (e : String),
      run env = Outcome.rpcError t o fl e → exitCode (run env) ≠ 0) ∧
    (∀ (t : List Call) (o : List String) (m : String),
      run env = Outcome.panicked t o m → exitCode (run env) ≠ 0) := by
  refine ⟨?_, ?_, ?_⟩
  · intro t o f bal h hbal
    obtain ⟨ws', ma', g', bal', ta', txid', bh', rest', ht', tx', raw', co', ca', fe',
      -, -, -, -, -, -, -, -, i9, -, -, -, -, -, -, -, -, -, -, -, ioeq, -⟩ :=
      run_success_inv env t o f h
    obtain rfl : bal' = bal := rpc_ok_inj (i9.symm.trans hbal)
    refine ⟨ioeq, ?_, ?_⟩
    · rw [ioeq]
      rfl
    · rw [h]
      rfl
  · intro t o fl e h
    rw [h]
    simp [exitCode]
  · intro t o m h
    rw [h]
    simp [exitCode]

/-- Claim C9 witness: the nominal run prints the two lines and exits 0; a
failed connection exits nonzero. -/
theorem spec_c9_witness :
    (stdoutOK = [balanceLine 5000000000, doneLine] ∧ stdoutOK.length = 2 ∧
      exitCode (run envOK) = 0) ∧ exitCode (run envErrConn) ≠ 0 :=
  ⟨(spec_c9 envOK).1 traceOK stdoutOK fileOK 5000000000 (by rfl) rfl,
   (spec_c9 envErrConn).2.1 [] [] none "connection refused" (by rfl)⟩

/-- Claim C10: when every step up to the one-block generate call succeeds
but the node returns an empty block-hash list, the `block_hashes[0]` access
aborts with an out-of-bounds fault (panic, exit 101), not a propagated RPC
error. -/
theorem spec_c10 (env : Env) (ws g : List String) (ma ta txid : String) (bal : Nat)
    (h1 : env.connectBase = RpcResult.ok ())
    (h2 : env.listWallets = RpcResult.ok ws)
    (h3 : env.createMiner = RpcResult.ok ())
    (h4 : env.createTrader = RpcResult.ok ())
    (h5 : env.connectMiner = RpcResult.ok ())
    (h6 : env.connectTrader = RpcResult.ok ())
    (h7 : env.newAddressMiner = RpcResult.ok ma)
    (h8 : env.generate101 = RpcResult.ok g)
    (h9 : env.getBalance = RpcResult.ok bal)
    (h10 : env.newAddressTrader = RpcResult.ok ta)
    (h11 : env.sendToAddress = RpcResult.ok txid)
    (h12 : env.generate1 = RpcResult.ok []) :
    panicMsgOf (run env) =
      some "index out of bounds: the len is 0 but the index is 0" ∧
    exitCode (run env) = 101 := by
  constructor <;>
    simp only [run, provisionMiner, provisionTrader, clients, mineAndPay,
      h1, h2, h3, h4, h5, h6, h7, h8, h9, h10, h11, h12] <;>
    split_ifs <;> rfl

/-- Claim C10 witness: the empty-generate environment panics with the
out-of-bounds message. -/
theorem spec_c10_witness :
    panicMsgOf (run envEmptyGen) =
      some "index out of bounds: the len is 0 but the index is 0" ∧
    exitCode (run envEmptyGen) = 101 :=
  spec_c10 envEmptyGen [] ["gh"] "maddr" "taddr" "txid1" 5000000000
    rfl rfl rfl rfl rfl rfl rfl rfl rfl rfl rfl rfl
